import Mathlib

/-!
Verification of the betterinfofeeds ingestion pipeline.

Shallow embedding of the repository's Python sources:
  * `src/models.py`      — the `Item` table and its unique `link` constraint,
  * `src/feeds.py`       — RSS fetching (`fetch_single_feed`, `fetch_all_feeds`),
  * `src/email_fetch.py` — Gmail fetching, email parsing, and the HTML
    normalizer (`_html_to_text`, `_extract_domain`, `_extract_email_body`,
    `parse_email_content`, `fetch_newsletter_emails`).

Conventions:
  * Timestamps are opaque integers (the claims only compare them).
  * Strings are modelled by Lean `String`; the Python string methods used by
    the sources (`strip`, `split`, `startswith`, `lower`, substring `in`) are
    given character-list implementations below so that every definition
    evaluates inside the kernel.
  * Base64-decoded MIME payload data is modelled directly as the decoded
    string (`urlsafe_b64decode(...).decode("utf-8")` is an external, injective
    transport step).
  * External libraries (BeautifulSoup's `html.parser`, the Gmail API) are
    modelled only at their interface: a parsed HTML document is a value of the
    `Html` tree type supplied alongside the raw string, and the Gmail
    `messages().list` call returns at most `maxResults` messages.
-/

namespace BetterInfoFeeds

/-! ## Python-style string helpers -/

/-- Python `sub in s` on character lists: `sub` occurs as a contiguous
sublist of `l`. -/
def hasSub (sub : List Char) : List Char → Bool
  | [] => sub.isEmpty
  | l@(_ :: t) => sub.isPrefixOf l || hasSub sub t

/-- Python substring containment `sub in s`. -/
def containsSub (s sub : String) : Bool :=
  hasSub sub.toList s.toList

/-- Python `any(k in s for k in keys)`. -/
def containsAnySub (s : String) (keys : List String) : Bool :=
  keys.any (fun k => containsSub s k)

/-- Lowercase a string character-wise (Python `str.lower()` on ASCII text). -/
def strLower (s : String) : String :=
  String.mk (s.toList.map Char.toLower)

/-- Python `s.startswith(pre)`. -/
def strStartsWith (s pre : String) : Bool :=
  pre.toList.isPrefixOf s.toList

/-- The whitespace characters stripped by Python `str.strip()` (the
vertical-tab and form-feed cases never occur in the texts modelled
here). -/
def pySpace (c : Char) : Bool :=
  c = ' ' || c = '\t' || c = '\n' || c = '\r'

/-- Python `s.strip()`: remove leading and trailing whitespace. -/
def pyStrip (s : String) : String :=
  String.mk (((s.toList.dropWhile pySpace).reverse.dropWhile pySpace).reverse)

/-- Split a character list at every separator character, keeping empty
pieces (Python `s.split(sep)` for a one-character separator). -/
def splitOnCharGo (sep : Char → Bool) (cur : List Char) : List Char → List (List Char)
  | [] => [cur.reverse]
  | c :: t =>
    if sep c then cur.reverse :: splitOnCharGo sep [] t
    else splitOnCharGo sep (c :: cur) t

/-- Python `text.split("\n")`. -/
def splitLines (s : String) : List String :=
  (splitOnCharGo (fun c => c = '\n') [] s.toList).map String.mk

/-- Collapse runs of spaces/tabs to a single space
(the `re.sub(r"[ \t]+", " ", text)` step of `_html_to_text`, which acts
line-locally because neither class matches a newline). -/
def collapseWsGo (prevWs : Bool) : List Char → List Char
  | [] => []
  | c :: t =>
    if c = ' ' || c = '\t' then
      if prevWs then collapseWsGo true t else ' ' :: collapseWsGo true t
    else c :: collapseWsGo false t

/-- String version of `collapseWsGo`. -/
def collapseWs (s : String) : String :=
  String.mk (collapseWsGo false s.toList)

/-- Python `line.split()`: split on whitespace runs, dropping empty pieces
(within one line the only whitespace is spaces and tabs). -/
def pySplitWords (s : String) : List String :=
  ((splitOnCharGo (fun c => c = ' ' || c = '\t') [] s.toList).map String.mk).filter
    (fun w => w ≠ "")

/-- Python `word.strip("()")`: remove leading and trailing parenthesis
characters. -/
def stripParenChars (w : String) : String :=
  let isP : Char → Bool := fun c => c = '(' || c = ')'
  String.mk (((w.toList.dropWhile isP).reverse.dropWhile isP).reverse)

/-- `re.sub(r"<[^>]+>", "", s)` on character lists: repeatedly delete the
leftmost `<`…`>` span with a non-empty interior containing no `>`
(the regex-based tag-strip fallback of `_html_to_text`,
src/email_fetch.py lines 312-315).  The `fuel` argument only makes the
recursion structural: every step consumes at least one character, so
starting it at the list length never exhausts it. -/
def stripTagsFuel : Nat → List Char → List Char
  | 0, l => l
  | _ + 1, [] => []
  | fuel + 1, c :: rest =>
    if c = '<' then
      let inside := rest.takeWhile (fun d => d ≠ '>')
      if inside.length ≥ 1 && (rest.drop inside.length ≠ []) then
        -- a `>` closes a non-empty interior: drop the whole match
        stripTagsFuel fuel (rest.drop (inside.length + 1))
      else
        c :: stripTagsFuel fuel rest
    else
      c :: stripTagsFuel fuel rest

/-- String version of the regex tag-strip. -/
def stripTags (s : String) : String :=
  String.mk (stripTagsFuel s.toList.length s.toList)

/-- Count of the URL-structural characters `/`, `=`, `&`, `?` in a line
(src/email_fetch.py lines 450-452). -/
def urlCharCount (s : String) : Nat :=
  s.toList.count '/' + s.toList.count '=' + s.toList.count '&' + s.toList.count '?'

/-- Remove every `[` and `]` (Python `s.replace("[","").replace("]","")`). -/
def removeBrackets (s : String) : String :=
  String.mk (s.toList.filter (fun c => c ≠ '[' && c ≠ ']'))

/-! ## Store and deduplicating insert

`src/models.py` declares the `items` table with `link` `unique=True`
(line 37).  `session.add` + `session.commit` on a record whose `link` is
already present raises `IntegrityError`; both ingestion loops catch it,
roll back, and continue (src/feeds.py lines 101-107, src/email_fetch.py
lines 606-610).  The spec's tri-state insert is therefore: key collision ⟶
`duplicate` with the store unchanged, otherwise `inserted` appending the
record unchanged. -/

/-- One row of the `items` table (src/models.py lines 23-49); `id` and
`created_at` are database-assigned and not observed by any claim. -/
structure StoredItem where
  title : String
  link : String
  published : Int
  summary : String
  source : String
deriving DecidableEq, Repr

/-- Outcome of one insert attempt. -/
inductive InsertResult where
  | inserted
  | duplicate
deriving DecidableEq, Repr

/-- The persistent store: rows in insertion order. -/
abbrev Store := List StoredItem

/-- `session.add(item); session.commit()` under the unique constraint on
`link`: a collision raises `IntegrityError` which the caller turns into a
rollback (store unchanged), otherwise the row is committed. -/
def insertItem (s : Store) (it : StoredItem) : Store × InsertResult :=
  if s.any (fun r => r.link = it.link) then (s, .duplicate)
  else (s ++ [it], .inserted)

/-- The store invariant maintained by the unique constraint: no two rows
share a `link`. -/
def uniqueKeys (s : Store) : Prop :=
  (s.map (fun r => r.link)).Nodup

instance (s : Store) : Decidable (uniqueKeys s) := by
  unfold uniqueKeys; infer_instance

/-- Number of rows whose identity key is `k`. -/
def countKey (s : Store) (k : String) : Nat :=
  (s.filter (fun r => r.link = k)).length

/-! ## HTML document model

`_html_to_text` (src/email_fetch.py lines 298-495) manipulates the tree
produced by `BeautifulSoup(html, "html.parser")`.  The parser is an
external library; we model its output as a value of the `Html` tree type.
The counterexample/witness inputs below only use trivially well-formed
markup whose parse is unambiguous. -/

/-- A parsed HTML node: an element with a name, attributes and children, or
a text node. -/
inductive Html where
  | tag (name : String) (attrs : List (String × String)) (children : List Html)
  | txt (s : String)
deriving Repr

mutual

/-- `element.get_text()`: concatenation of all text descendants in document
order (BeautifulSoup's default, no separator). -/
def getText : Html → String
  | .txt s => s
  | .tag _ _ cs => getTextList cs

/-- `getText` over a forest. -/
def getTextList : List Html → String
  | [] => ""
  | h :: t => getText h ++ getTextList t

end

mutual

/-- `node.find_all(name)` including the node itself when it matches
(used on children forests to get strict-descendant semantics). -/
def collectNamed (name : String) : Html → List Html
  | .txt _ => []
  | .tag n a cs =>
    (if n = name then [Html.tag n a cs] else []) ++ collectNamedList name cs

/-- `collectNamed` over a forest, in document order. -/
def collectNamedList (name : String) : List Html → List Html
  | [] => []
  | h :: t => collectNamed name h ++ collectNamedList name t

end

/-- What one transformation pass does to an element it inspects:
`decompose()`, `replace_with(string)`, or leave it and recurse into its
children. -/
inductive NodeAction where
  | remove
  | replaceText (s : String)
  | keep

mutual

/-- Apply one `find_all`-style pass top-down.  Matches the observable
behaviour of the corresponding `for element in soup.find_all(...)` loops:
an element that is removed or replaced takes its whole subtree with it, so
the loop's later visits to those detached descendants have no effect on
the soup. -/
def applyPass (act : Html → NodeAction) : Html → List Html
  | .txt s => [.txt s]
  | .tag n a cs =>
    match act (.tag n a cs) with
    | .remove => []
    | .replaceText s => [.txt s]
    | .keep => [.tag n a (applyPassList act cs)]

/-- `applyPass` over a forest. -/
def applyPassList (act : Html → NodeAction) : List Html → List Html
  | [] => []
  | h :: t => applyPass act h ++ applyPassList act t

end

/-- `element.get(key)`: first attribute with that name, if any. -/
def attrGet (attrs : List (String × String)) (k : String) : Option String :=
  (attrs.find? (fun p => p.1 = k)).map (fun p => p.2)

/-! ## Domain extraction (`_extract_domain`, src/email_fetch.py lines 497-539) -/

/-- The `(?:www\.)?([^/]+)` tail of the domain regex, applied to the text
after the `://`: optionally skip `www.`, then capture a non-empty run of
non-`/` characters (with regex backtracking when skipping `www.` leaves
nothing to capture). -/
def domainAfterScheme (rest : List Char) : Option (List Char) :=
  let tryFrom : List Char → Option (List Char) := fun r =>
    let d := r.takeWhile (fun c => c ≠ '/')
    if d.isEmpty then none else some d
  if "www.".toList.isPrefixOf rest then
    match tryFrom (rest.drop 4) with
    | some d => some d
    | none => tryFrom rest
  else tryFrom rest

/-- Match `https?://(?:www\.)?([^/]+)` anchored at the start of `l`. -/
def schemeMatchAt (l : List Char) : Option (List Char) :=
  if "https://".toList.isPrefixOf l then domainAfterScheme (l.drop 8)
  else if "http://".toList.isPrefixOf l then domainAfterScheme (l.drop 7)
  else none

/-- `re.search`: leftmost position where the scheme pattern matches. -/
def searchSchemeGo : List Char → Option (List Char)
  | [] => none
  | l@(_ :: t) =>
    match schemeMatchAt l with
    | some d => some d
    | none => searchSchemeGo t

/-- The tracking subdomain markers of `_extract_domain`
(src/email_fetch.py lines 505-514). -/
def trackingSubdomains : List String :=
  ["mail.", "link.", "click.", "track.", "go.", "em.", "newsletter.", "news."]

/-- The `for prefix in tracking_prefixes` loop: the first marker that
starts the domain *and* leaves a non-empty remainder is stripped (once);
a marker equal to the whole domain falls through to the next one. -/
def stripTrackingSub (domain : List Char) : List String → Option (List Char)
  | [] => none
  | p :: rest =>
    if p.toList.isPrefixOf domain && !(domain.drop p.toList.length).isEmpty then
      some (domain.drop p.toList.length)
    else stripTrackingSub domain rest

/-- `GmailFetcher._extract_domain` (src/email_fetch.py lines 497-539). -/
def extract_domain (url : String) : String :=
  match searchSchemeGo url.toList with
  | none => "Link"
  | some domainL =>
    let domain := String.mk domainL
    match stripTrackingSub domainL trackingSubdomains with
    | some clean => String.mk clean
    | none =>
      if containsAnySub domain ["beehiiv", "mailchimp", "constantcontact", "sendgrid"] then
        if containsSub domain "beehiiv" then "beehiiv.com"
        else if containsSub domain "mailchimp" then "mailchimp.com"
        else if containsSub domain "constantcontact" then "constantcontact.com"
        else if containsSub domain "sendgrid" then "sendgrid.com"
        else domain
      else domain

/-! ## Link rewriting (the `for link in soup.find_all("a")` loop,
src/email_fetch.py lines 336-366) -/

/-- Fate of one anchor element. -/
inductive LinkAction where
  | removed
  | replacedWith (s : String)
deriving DecidableEq, Repr

/-- The per-anchor decision of the link loop, as a function of the `href`
attribute and the anchor's raw visible text (`link.get_text()`). -/
def rewrite_link (href rawText : String) : LinkAction :=
  let text := pyStrip rawText
  if containsAnySub (strLower href) ["tracking", "pixel", "beacon", "unsubscribe"] then
    .removed
  else if containsAnySub (strLower text) ["view in browser", "view image", "unsubscribe"] then
    .removed
  else if href.length > 100 && (containsSub href "beehiiv" || containsSub href "mail") then
    let domain := extract_domain href
    if text ≠ "" && text.length > 3 then .replacedWith (text ++ " [" ++ domain ++ "]")
    else .replacedWith ("[" ++ domain ++ "]")
  else if text ≠ "" then .replacedWith text
  else .removed

/-! ## The individual passes of `_html_to_text` (src/email_fetch.py 320-394) -/

/-- Elements removed outright (line 321). -/
def unwantedTags : List String := ["script", "style", "meta", "link", "head", "title"]

/-- Pass 1: `decompose()` scripts, styles, metadata, head, title. -/
def unwantedAct : Html → NodeAction
  | .tag n _ _ => if n ∈ unwantedTags then .remove else .keep
  | .txt _ => .keep

/-- Pass 2: remove tracking images (lines 327-334). -/
def imgAct : Html → NodeAction
  | .tag n attrs _ =>
    if n = "img" then
      let src := (attrGet attrs "src").getD ""
      if containsAnySub (strLower src) ["tracking", "pixel", "beacon", "1x1"] then .remove
      else if attrGet attrs "width" = some "1" || attrGet attrs "height" = some "1" then .remove
      else .keep
    else .keep
  | .txt _ => .keep

/-- Pass 3: rewrite or drop anchors (lines 336-366). -/
def linkAct : Html → NodeAction
  | .tag n attrs cs =>
    if n = "a" then
      let href := (attrGet attrs "href").getD ""
      match rewrite_link href (getText (.tag n attrs cs)) with
      | .removed => .remove
      | .replacedWith s => .replaceText s
    else .keep
  | .txt _ => .keep

/-- Heading level of `h1`…`h6`, if the name is a heading. -/
def headingLevel (n : String) : Option Nat :=
  if n = "h1" then some 1 else if n = "h2" then some 2
  else if n = "h3" then some 3 else if n = "h4" then some 4
  else if n = "h5" then some 5 else if n = "h6" then some 6 else none

/-- `'#' * min(i, 4)`. -/
def hashRun (i : Nat) : String := String.mk (List.replicate (min i 4) '#')

/-- Pass 4: headings to markdown (lines 369-373).  The source runs six
loops, one per level; a single top-down pass is observably equal: sibling
headings are independent, and a heading nested in another disappears with
its ancestor's `replace_with` before its own loop visit can affect the
soup. -/
def headingAct : Html → NodeAction
  | .tag n a cs =>
    match headingLevel n with
    | some i => .replaceText ("\n" ++ hashRun i ++ " " ++ pyStrip (getText (.tag n a cs)) ++ "\n\n")
    | none => .keep
  | .txt _ => .keep

/-- Pass 5: `ul`/`ol` to bullet lines (lines 376-380); `find_all("li")`
scans all descendants in document order. -/
def listAct : Html → NodeAction
  | .tag n _ cs =>
    if n = "ul" || n = "ol" then
      let items := (collectNamedList "li" cs).map (fun li => "• " ++ pyStrip (getText li))
      .replaceText ("\n" ++ String.intercalate "\n" items ++ "\n")
    else .keep
  | .txt _ => .keep

/-- Pass 6: paragraphs (lines 383-384). -/
def paraAct : Html → NodeAction
  | .tag n a cs =>
    if n = "p" then .replaceText ("\n" ++ pyStrip (getText (.tag n a cs)) ++ "\n") else .keep
  | .txt _ => .keep

/-- Pass 7: line breaks (lines 386-387). -/
def brAct : Html → NodeAction
  | .tag n _ _ => if n = "br" then .replaceText "\n" else .keep
  | .txt _ => .keep

/-- Pass 8: bold (lines 390-391). -/
def strongAct : Html → NodeAction
  | .tag n a cs =>
    if n = "strong" || n = "b" then .replaceText ("**" ++ pyStrip (getText (.tag n a cs)) ++ "**")
    else .keep
  | .txt _ => .keep

/-- Pass 9: italic (lines 393-394). -/
def emAct : Html → NodeAction
  | .tag n a cs =>
    if n = "em" || n = "i" then .replaceText ("*" ++ pyStrip (getText (.tag n a cs)) ++ "*")
    else .keep
  | .txt _ => .keep

/-! ## Line-level filtering (src/email_fetch.py lines 406-495) -/

/-- The newsletter-cruft phrases of the `any(skip in line.lower() ...)`
check (lines 417-436). -/
def cruftPhrases : List String :=
  ["view in browser", "view image:", "view image", "follow image link:",
   "follow image link", "unsubscribe", "forwarded this email",
   "you received this email", "caption:", "download your kit here",
   "click here", "read more", "beehiiv.com", "mail.beehiiv.com",
   "link.mail.beehiiv.com"]

/-- The per-word loop (lines 457-477): strip surrounding parentheses; a
long `https://` word is replaced by its bracketed domain unless it
dominates the line (then the whole line is skipped — `none`); bare
beehiiv words are dropped.  `len(word) > len(line) / 2` is the strict
rational comparison `2*len(word) > len(line)`. -/
def cleanWords (line : String) : List String → Option (List String)
  | [] => some []
  | w0 :: t =>
    let w := stripParenChars w0
    if strStartsWith w "https://" && w.length > 50 then
      if 2 * w.length > line.length then none
      else (cleanWords line t).map (fun r => ("[" ++ extract_domain w ++ "]") :: r)
    else if containsSub w "beehiiv.com" || containsSub w "mail.beehiiv.com" then
      cleanWords line t
    else (cleanWords line t).map (fun r => w :: r)

/-- The body of the `for line in lines` filter loop (lines 409-493):
`none` means the line is dropped. -/
def processLine (line0 : String) : Option String :=
  let line := pyStrip line0
  if line = "" then none
  else if containsAnySub (strLower line) cruftPhrases then none
  else if strStartsWith line "https://" && line.length > 100 then none
  else if strStartsWith line "(https://" && line.length > 100 then none
  else if (containsSub line "beehiiv.com" || containsSub line "mail.") && line.length > 150 then none
  else if urlCharCount line > 10 then none
  else
    match cleanWords line (pySplitWords line) with
    | none => none
    | some cw =>
      let cleaned := String.intercalate " " cw
      if cleaned = "----------" || cleaned = "======" || cleaned = "------" || cleaned = "=====" then
        none
      else if cleaned ≠ "" && (pyStrip (removeBrackets cleaned)).length > 10 then some cleaned
      else none

/-- Whitespace clean-up plus the line filter (lines 399-495).  Of the three
`re.sub` clean-ups (lines 402-404): the blank-line collapse only reduces
whitespace-only lines, all of which the loop below discards
(`if not line: continue`); the `[ \t]+ → " "` collapse never crosses a
newline, so it factors through the split as `collapseWs`; the MULTILINE
trim removes only leading/trailing line whitespace, subsumed by the loop's
own `line.strip()` and the blank-line skip. -/
def cleanLinesFilter (text : String) : String :=
  let lines := (splitLines text).map collapseWs
  let clean := lines.filterMap processLine
  pyStrip (String.intercalate "\n" clean)

/-- The structured (BeautifulSoup-available) branch of `_html_to_text`
applied to the parsed document: the nine passes in source order, then
`soup.get_text()`, then the whitespace/line clean-up. -/
def html_to_text_structured (doc : List Html) : String :=
  let d := applyPassList unwantedAct doc
  let d := applyPassList imgAct d
  let d := applyPassList linkAct d
  let d := applyPassList headingAct d
  let d := applyPassList listAct d
  let d := applyPassList paraAct d
  let d := applyPassList brAct d
  let d := applyPassList strongAct d
  let d := applyPassList emAct d
  cleanLinesFilter (getTextList d)

/-- `GmailFetcher._html_to_text` (src/email_fetch.py lines 298-495).
`parsed` is the outcome of obtaining the structured parser: `none` models
the `ImportError` branch (lines 310-315), where the function falls back to
the regex tag-strip followed by `.strip()`; `some doc` models a successful
`BeautifulSoup(html_content, "html.parser")` parse of `html_content`. -/
def html_to_text (parsed : Option (List Html)) (html_content : String) : String :=
  match parsed with
  | none => pyStrip (stripTags html_content)
  | some doc => html_to_text_structured doc

/-! ## Feed ingestion (`src/feeds.py`)

`feedparser` is external; a parsed entry is modelled by `FeedEntry`.
`Option` fields model `entry.get(key, default)` / `hasattr` + truthiness:
`none` is an absent (or falsy, for the parsed timestamps) field, `some v`
a present one — including `some ""` for a present-but-empty string. -/

/-- One parsed feed entry as accessed by `fetch_single_feed`
(src/feeds.py lines 63-76). -/
structure FeedEntry where
  title : Option String
  link : Option String
  summary : Option String
  description : Option String
  published_parsed : Option Int
  updated_parsed : Option Int
deriving DecidableEq, Repr

/-- `entry.get("link", "")` (src/feeds.py line 65). -/
def linkOf (e : FeedEntry) : String := e.link.getD ""

/-- The published-timestamp resolution (src/feeds.py lines 68-76):
default `datetime.utcnow()`, overridden by `published_parsed` when present
and truthy, else by `updated_parsed` when present and truthy. -/
def resolve_published (e : FeedEntry) (now : Int) : Int :=
  match e.published_parsed with
  | some t => t
  | none =>
    match e.updated_parsed with
    | some t => t
    | none => now

/-- The `Item(...)` constructed for one feed entry (src/feeds.py lines
63-92): title defaults to `"No Title"` when absent, summary falls back to
description then `""`. -/
def mk_feed_item (source_name : String) (e : FeedEntry) (now : Int) : StoredItem :=
  { title := e.title.getD "No Title"
    link := linkOf e
    published := resolve_published e now
    summary := e.summary.getD (e.description.getD "")
    source := source_name }

/-- State of one ingestion loop.  `submitted` is ghost instrumentation
recording each record passed to `session.add` (src/feeds.py line 95,
src/email_fetch.py line 598); it is not program state. -/
structure ProcState where
  store : Store
  new_items : List StoredItem
  submitted : List StoredItem
deriving DecidableEq, Repr

/-- One iteration of the `for entry in feed.entries` loop of
`fetch_single_feed` (src/feeds.py lines 61-112): an entry with an empty
link is skipped before any store interaction (lines 78-83); otherwise the
built item is submitted, with `IntegrityError` (duplicate link) rolled
back and skipped (lines 101-107). -/
def feedStep (source_name : String) (now : Int) (st : ProcState) (e : FeedEntry) : ProcState :=
  if linkOf e = "" then st
  else
    let item := mk_feed_item source_name e now
    match insertItem st.store item with
    | (s', .inserted) =>
      { store := s', new_items := st.new_items ++ [item], submitted := st.submitted ++ [item] }
    | (s', .duplicate) =>
      { store := s', new_items := st.new_items, submitted := st.submitted ++ [item] }

/-- The whole entry loop of `fetch_single_feed`. -/
def process_entries (source_name : String) (s : Store) (entries : List FeedEntry) (now : Int) :
    ProcState :=
  entries.foldl (feedStep source_name now) { store := s, new_items := [], submitted := [] }

/-- Outcome of the network fetch + parse of one feed URL.  `networkError`
models a `requests.RequestException` (timeout, non-success status via
`raise_for_status`, transport failure). -/
inductive FetchOutcome where
  | success (entries : List FeedEntry)
  | networkError (msg : String)
deriving DecidableEq, Repr

/-- `RSSFeedManager.fetch_single_feed` (src/feeds.py lines 29-128): on a
network error the handler at lines 122-124 logs and returns the empty
list; otherwise the entry loop runs.  Every exception raised inside the
body is caught by the handlers at lines 122-128, so the function always
returns a list and never raises. -/
def fetch_single_feed (source_name : String) (now : Int) (s : Store) (outcome : FetchOutcome) :
    ProcState :=
  match outcome with
  | .networkError _ => { store := s, new_items := [], submitted := [] }
  | .success entries => process_entries source_name s entries now

/-- One per-source entry of the `fetch_all_feeds` result dict
(src/feeds.py lines 143-160). -/
structure SourceResult where
  success : Bool
  new_items : Nat
  error : Option String
deriving DecidableEq, Repr

/-- `RSSFeedManager.fetch_all_feeds` (src/feeds.py lines 130-163), with
each source's fetch outcome supplied explicitly.  Because
`fetch_single_feed` catches every exception internally and returns a list,
the `except` branch at lines 154-160 (which would set `success: False`
and an `error` string) is unreachable for source failures; every source —
including one whose fetch hit a network error — is recorded through the
`try` branch as `{success: True, new_items: len(new_items)}` with no
`error` key (modelled as `error := none`).  Result entries are kept as an
ordered association list; the source dict is keyed by the (distinct)
configured source names.  `cycleStep` is one iteration of the
`for source_name, feed_url in RSS_FEEDS.items()` loop
(src/feeds.py lines 141-160). -/
def cycleStep (now : Int) (acc : Store × List (String × SourceResult))
    (src : String × FetchOutcome) : Store × List (String × SourceResult) :=
  let st := fetch_single_feed src.1 now acc.1 src.2
  (st.store,
   acc.2 ++ [(src.1, { success := true, new_items := st.new_items.length, error := none })])

/-- `RSSFeedManager.fetch_all_feeds` (src/feeds.py lines 130-163): the
source loop folded over the configured `(name, outcome)` list. -/
def fetch_all_feeds (now : Int) (s : Store) (sources : List (String × FetchOutcome)) :
    Store × List (String × SourceResult) :=
  sources.foldl (cycleStep now) (s, [])

/-! ## Mail ingestion (`src/email_fetch.py`) -/

/-- One MIME part as accessed by `_extract_email_body`: its `mimeType` and
the base64url-decoded `body.data` (`none` models an absent `data` field,
which `part["body"].get("data", "")` turns into `""`). -/
structure MessagePart where
  mimeType : String
  data : Option String
deriving DecidableEq, Repr

/-- The message payload: `parts = none` models a payload without a
`"parts"` key (single-part). -/
structure EmailPayload where
  mimeType : String
  data : Option String
  parts : Option (List MessagePart)
deriving DecidableEq, Repr

/-- Concatenated plain-text content: the `body` accumulator of
`_extract_email_body` (src/email_fetch.py lines 257-286).  In the
multipart branch every `text/plain` part's decoded data is appended (the
`if data:` guard only skips appending `""`, which is the identity); in the
single-part branch a `text/plain` payload's decoded data is the content. -/
def plainContent (p : EmailPayload) : String :=
  match p.parts with
  | some parts =>
    parts.foldl (fun acc part => if part.mimeType = "text/plain" then acc ++ part.data.getD "" else acc) ""
  | none => if p.mimeType = "text/plain" then p.data.getD "" else ""

/-- Concatenated HTML content: the `html_body` accumulator of
`_extract_email_body`, analogously. -/
def htmlContent (p : EmailPayload) : String :=
  match p.parts with
  | some parts =>
    parts.foldl (fun acc part => if part.mimeType = "text/html" then acc ++ part.data.getD "" else acc) ""
  | none => if p.mimeType = "text/html" then p.data.getD "" else ""

/-- `GmailFetcher._extract_email_body` (src/email_fetch.py lines 247-296):
use the accumulated plain text if non-empty (`if body:`), else the
accumulated HTML through `_html_to_text` (`elif html_body:`), else `""`;
the result is `.strip()`ed. -/
def extract_email_body (parsed : Option (List Html)) (p : EmailPayload) : String :=
  (if plainContent p ≠ "" then plainContent p
   else if htmlContent p ≠ "" then html_to_text parsed (htmlContent p)
   else "" : String) |> pyStrip

/-- A Gmail message as accessed by `parse_email_content`: server id,
header list, `internalDate` in milliseconds (`0` models an absent field,
matching `int(message.get("internalDate", 0))`), and the payload. -/
structure GmailMessage where
  id : String
  headers : List (String × String)
  internalDate : Int
  payload : EmailPayload
deriving DecidableEq, Repr

/-- The parsed-email dictionary returned by `parse_email_content`
(src/email_fetch.py lines 237-245). -/
structure EmailData where
  title : String
  link : String
  published : Int
  summary : String
  source : String
  sender : String
  message_id : String
deriving DecidableEq, Repr

/-- Lookup in the header dict `{h["name"]: h["value"] for h in headers}`
(src/email_fetch.py line 209): a later header with the same name
overwrites an earlier one. -/
def headerLookup (hs : List (String × String)) (k : String) : Option String :=
  (hs.reverse.find? (fun p => p.1 = k)).map (fun p => p.2)

/-- `dict.get(key, default)` on the header dict. -/
def headerGet (hs : List (String × String)) (k d : String) : String :=
  (headerLookup hs k).getD d

/-- `GmailFetcher.parse_email_content` (src/email_fetch.py lines 198-245).
`parsedate` models the external `email.utils.parsedate_to_datetime`:
`none` models it raising (missing/unparsable `Date` header), which the
bare `except` turns into the internal-date fallback.  `internalDate / 1000`
models `fromtimestamp(internal_date / 1000)` at second granularity
(timestamps are opaque to every claim). -/
def parse_email_content (parsed : Option (List Html)) (parsedate : String → Option Int)
    (now : Int) (m : GmailMessage) : EmailData :=
  let subject := headerGet m.headers "Subject" "No Subject"
  let sender := headerGet m.headers "From" "Unknown Sender"
  let date_str := headerGet m.headers "Date" ""
  let published :=
    match parsedate date_str with
    | some t => t
    | none => if m.internalDate ≠ 0 then m.internalDate / 1000 else now
  let body := extract_email_body parsed m.payload
  { title := subject
    link := "local://email/" ++ m.id
    published := published
    summary := if body ≠ "" then body else ""
    source := "email"
    sender := sender
    message_id := m.id }

/-- `GmailFetcher.search_emails` (src/email_fetch.py lines 135-168): when
authenticated, issues `users().messages().list(..., maxResults=max_results)`.
The Gmail API is external; its documented contract is to return at most
`max_results` of the query-matching messages, modelled by `List.take`.
`matching` is the query-matching mailbox content; each element pairs the
summary id with the full message that `get_message_details` would return
(`none` models a failed detail fetch, lines 191-196). -/
def search_emails (authenticated : Bool) (matching : List (String × Option GmailMessage))
    (max_results : Nat) : List (String × Option GmailMessage) :=
  if authenticated then matching.take max_results else []

/-- `GmailFetcher.fetch_newsletter_emails` (src/email_fetch.py lines
541-621): search with `max_results=100` (line 573), then for each message
fetch details (skipping failures), parse, and insert with duplicate
links rolled back and skipped (lines 577-618).  `emailStep` is one
iteration of the message loop. -/
def emailStep (parsed : Option (List Html)) (parsedate : String → Option Int) (now : Int)
    (st : ProcState) (msg : String × Option GmailMessage) : ProcState :=
  match msg.2 with
  | none => st
  | some m =>
    let ed := parse_email_content parsed parsedate now m
    let item : StoredItem :=
      { title := ed.title, link := ed.link, published := ed.published
        summary := ed.summary, source := ed.source }
    match insertItem st.store item with
    | (s', .inserted) =>
      { store := s', new_items := st.new_items ++ [item], submitted := st.submitted ++ [item] }
    | (s', .duplicate) =>
      { store := s', new_items := st.new_items, submitted := st.submitted ++ [item] }

/-- The search plus the `for msg_summary in messages` loop. -/
def fetch_newsletter_emails (authenticated : Bool) (parsed : Option (List Html))
    (parsedate : String → Option Int) (now : Int) (s : Store)
    (matching : List (String × Option GmailMessage)) : ProcState :=
  if authenticated then
    (search_emails authenticated matching 100).foldl (emailStep parsed parsedate now)
      { store := s, new_items := [], submitted := [] }
  else { store := s, new_items := [], submitted := [] }

/-! ## Generic lemmas about the ingestion folds -/

/-- One feed-loop step decomposes into its action from a blank state:
the store evolution depends only on the incoming store, and the item
lists are pure accumulators. -/
lemma feedStep_decomp (src : String) (now : Int) (st : ProcState) (e : FeedEntry) :
    feedStep src now st e =
      { store := (feedStep src now { store := st.store, new_items := [], submitted := [] } e).store
        new_items := st.new_items ++
          (feedStep src now { store := st.store, new_items := [], submitted := [] } e).new_items
        submitted := st.submitted ++
          (feedStep src now { store := st.store, new_items := [], submitted := [] } e).submitted } := by
  unfold feedStep
  by_cases h : linkOf e = ""
  · simp [h]
  · simp only [h, if_neg, ite_false]
    rcases hins : insertItem st.store (mk_feed_item src e now) with ⟨s', res⟩
    cases res <;> simp [hins]

/-- The feed-entry fold from an arbitrary state equals `process_entries`
from its store, with the accumulators prepended. -/
lemma foldl_feedStep_eq (src : String) (now : Int) :
    ∀ (entries : List FeedEntry) (st : ProcState),
      entries.foldl (feedStep src now) st =
        { store := (process_entries src st.store entries now).store
          new_items := st.new_items ++ (process_entries src st.store entries now).new_items
          submitted := st.submitted ++ (process_entries src st.store entries now).submitted } := by
  intro entries
  induction entries with
  | nil => intro st; simp [process_entries]
  | cons e rest ih =>
    intro st
    have hstep := feedStep_decomp src now st e
    calc (e :: rest).foldl (feedStep src now) st
        = rest.foldl (feedStep src now) (feedStep src now st e) := by
          simp [List.foldl_cons]
      _ = _ := by
          rw [ih (feedStep src now st e)]
          have h2 : (e :: rest).foldl (feedStep src now)
              { store := st.store, new_items := [], submitted := [] }
              = rest.foldl (feedStep src now)
                  (feedStep src now { store := st.store, new_items := [], submitted := [] } e) := by
            simp [List.foldl_cons]
          show _ = ({ store := (process_entries src st.store (e :: rest) now).store
                      new_items := st.new_items ++ (process_entries src st.store (e :: rest) now).new_items
                      submitted := st.submitted ++ (process_entries src st.store (e :: rest) now).submitted } : ProcState)
          unfold process_entries
          rw [h2, ih (feedStep src now { store := st.store, new_items := [], submitted := [] } e)]
          rw [hstep]
          simp [process_entries, List.append_assoc]

/-- `process_entries` unfolded by one entry. -/
lemma process_entries_cons (src : String) (now : Int) (s : Store) (e : FeedEntry)
    (rest : List FeedEntry) :
    process_entries src s (e :: rest) now =
      { store := (process_entries src (feedStep src now { store := s, new_items := [], submitted := [] } e).store rest now).store
        new_items := (feedStep src now { store := s, new_items := [], submitted := [] } e).new_items ++
          (process_entries src (feedStep src now { store := s, new_items := [], submitted := [] } e).store rest now).new_items
        submitted := (feedStep src now { store := s, new_items := [], submitted := [] } e).submitted ++
          (process_entries src (feedStep src now { store := s, new_items := [], submitted := [] } e).store rest now).submitted } := by
  unfold process_entries
  rw [List.foldl_cons, foldl_feedStep_eq]
  simp [process_entries]

/-- The cycle fold from an arbitrary result accumulator equals
`fetch_all_feeds`, with the accumulator prepended. -/
lemma foldl_cycleStep_eq (now : Int) :
    ∀ (sources : List (String × FetchOutcome)) (s : Store) (acc : List (String × SourceResult)),
      sources.foldl (cycleStep now) (s, acc)
        = ((fetch_all_feeds now s sources).1, acc ++ (fetch_all_feeds now s sources).2) := by
  intro sources
  induction sources with
  | nil => intro s acc; simp [fetch_all_feeds]
  | cons src rest ih =>
    intro s acc
    have h1 : (src :: rest).foldl (cycleStep now) (s, acc)
        = rest.foldl (cycleStep now) (cycleStep now (s, acc) src) := by
      simp [List.foldl_cons]
    have h2 : fetch_all_feeds now s (src :: rest)
        = rest.foldl (cycleStep now) (cycleStep now (s, []) src) := by
      simp [fetch_all_feeds, List.foldl_cons]
    rw [h1, h2]
    rcases hst : fetch_single_feed src.1 now s src.2 with ⟨store', ni, sub⟩
    have hc1 : cycleStep now (s, acc) src
        = (store', acc ++ [(src.1, { success := true, new_items := ni.length, error := none })]) := by
      simp [cycleStep, hst]
    have hc2 : cycleStep now (s, []) src
        = (store', [(src.1, { success := true, new_items := ni.length, error := none })]) := by
      simp [cycleStep, hst]
    rw [hc1, hc2, ih store', ih store']
    simp [List.append_assoc]

/-- Each email-loop step submits at most one record. -/
lemma foldl_emailStep_submitted_le (parsed : Option (List Html)) (pd : String → Option Int)
    (now : Int) :
    ∀ (msgs : List (String × Option GmailMessage)) (st : ProcState),
      (msgs.foldl (emailStep parsed pd now) st).submitted.length ≤
        st.submitted.length + msgs.length := by
  intro msgs
  induction msgs with
  | nil => intro st; simp
  | cons m rest ih =>
    intro st
    have hstep : (emailStep parsed pd now st m).submitted.length ≤ st.submitted.length + 1 := by
      unfold emailStep
      rcases m with ⟨mid, mm⟩
      cases mm with
      | none => simp
      | some msg =>
        split
        · simp
        · dsimp only
          split <;> simp
    calc ((m :: rest).foldl (emailStep parsed pd now) st).submitted.length
        = (rest.foldl (emailStep parsed pd now) (emailStep parsed pd now st m)).submitted.length := by
          simp [List.foldl_cons]
      _ ≤ (emailStep parsed pd now st m).submitted.length + rest.length := ih _
      _ ≤ st.submitted.length + 1 + rest.length := by omega
      _ = st.submitted.length + (m :: rest).length := by simp [List.length_cons]; omega

/-- In a store with pairwise-distinct keys, a key held by some row is held
by exactly one row. -/
lemma countKey_eq_one : ∀ (s : Store), uniqueKeys s → ∀ r ∈ s, countKey s r.link = 1 := by
  intro s
  induction s with
  | nil => intro _ r hr; cases hr
  | cons a t ih =>
    intro huniq r hr
    have hnd : a.link ∉ t.map (fun x => x.link) ∧ (t.map (fun x => x.link)).Nodup := by
      simpa [uniqueKeys, List.nodup_cons] using huniq
    rcases List.mem_cons.mp hr with hr | hr
    · subst hr
      have hfil : t.filter (fun x => x.link = r.link) = [] := by
        rw [List.filter_eq_nil_iff]
        intro x hx
        simp only [decide_eq_true_eq]
        intro hxe
        exact hnd.1 (List.mem_map.mpr ⟨x, hx, hxe⟩)
      simp [countKey, List.filter_cons, hfil]
    · have hne : ¬(a.link = r.link) := by
        intro he
        exact hnd.1 (he ▸ List.mem_map.mpr ⟨r, hr, rfl⟩)
      have := ih hnd.2 r hr
      simp only [countKey, List.filter_cons, hne]
      simpa [countKey, hne] using this

/-- What the feed loop submits to the store: exactly the items built from
the entries with a non-empty link, in order. -/
lemma process_entries_submitted (src : String) (now : Int) :
    ∀ (entries : List FeedEntry) (s : Store),
      (process_entries src s entries now).submitted
        = (entries.filter (fun e => linkOf e ≠ "")).map (fun e => mk_feed_item src e now) := by
  intro entries
  induction entries with
  | nil => intro s; simp [process_entries]
  | cons e rest ih =>
    intro s
    rw [process_entries_cons]
    by_cases h : linkOf e = ""
    · simp only [feedStep, h, if_pos rfl]
      simp [h, ih]
    · simp only [feedStep, h, ite_false, if_neg h]
      rcases hins : insertItem s (mk_feed_item src e now) with ⟨s', res⟩
      cases res <;> simp [hins, h, ih]

/-- Splitting a list's length by a predicate. -/
lemma filter_length_compl (p : FeedEntry → Bool) (l : List FeedEntry) :
    (l.filter (fun e => ! p e)).length = l.length - (l.filter p).length := by
  induction l with
  | nil => simp
  | cons e rest ih =>
    have hlen : (rest.filter p).length ≤ rest.length := List.length_filter_le _ _
    cases h : p e <;> (simp [List.filter_cons, h, ih]; try omega)

/-- `fetch_all_feeds` over a concatenation: the second half starts from the
store left by the first, and the per-source results concatenate. -/
lemma fetch_all_feeds_append (now : Int) (s : Store) (l1 l2 : List (String × FetchOutcome)) :
    fetch_all_feeds now s (l1 ++ l2)
      = ((fetch_all_feeds now (fetch_all_feeds now s l1).1 l2).1,
         (fetch_all_feeds now s l1).2
           ++ (fetch_all_feeds now (fetch_all_feeds now s l1).1 l2).2) := by
  show (l1 ++ l2).foldl (cycleStep now) (s, []) = _
  rw [List.foldl_append]
  have h0 : l1.foldl (cycleStep now) (s, []) = fetch_all_feeds now s l1 := rfl
  rw [h0]
  rcases hf : fetch_all_feeds now s l1 with ⟨s1, r1⟩
  rw [foldl_cycleStep_eq now l2 s1 r1]

/-- A source whose fetch hits a network error contributes nothing to the
store and is recorded as `{success: True, new_items: 0}` with no error. -/
lemma fetch_all_feeds_net_err_cons (now : Int) (s : Store) (n m : String)
    (post : List (String × FetchOutcome)) :
    fetch_all_feeds now s ((n, FetchOutcome.networkError m) :: post)
      = ((fetch_all_feeds now s post).1,
         (n, { success := true, new_items := 0, error := none })
           :: (fetch_all_feeds now s post).2) := by
  show ((n, FetchOutcome.networkError m) :: post).foldl (cycleStep now) (s, []) = _
  rw [List.foldl_cons]
  have hc : cycleStep now (s, []) (n, FetchOutcome.networkError m)
      = (s, [(n, { success := true, new_items := 0, error := none })]) := by
    simp [cycleStep, fetch_single_feed]
  rw [hc, foldl_cycleStep_eq now post s _]
  simp [fetch_all_feeds]

/-! ## Claim C1 — dedup is idempotent per identity key -/

/-- C1: inserting a second item whose identity key (link) equals that of a
record already in a store satisfying the uniqueness invariant leaves the
store unchanged (so no field of the first record is altered), keeps
exactly one record for that key, is reported as a `Duplicate` rather than
an error, and does not abort the processing of the remaining items of the
batch: the rest of the batch produces the same store and the same new
items as if the duplicate entry had been processed alone. -/
theorem c1_insert_dedup_idempotent (src : String) (now : Int) (s : Store) (r : StoredItem)
    (e : FeedEntry) (rest : List FeedEntry)
    (huniq : uniqueKeys s) (hmem : r ∈ s) (hkey : r.link = linkOf e) (hlink : linkOf e ≠ "") :
    insertItem s (mk_feed_item src e now) = (s, InsertResult.duplicate) ∧
    countKey s (linkOf e) = 1 ∧
    (process_entries src s (e :: rest) now).store = (process_entries src s rest now).store ∧
    (process_entries src s (e :: rest) now).new_items
      = (process_entries src s rest now).new_items := by
  have hitem : (mk_feed_item src e now).link = linkOf e := rfl
  have hdup : insertItem s (mk_feed_item src e now) = (s, InsertResult.duplicate) := by
    unfold insertItem
    have : s.any (fun x => x.link = (mk_feed_item src e now).link) = true := by
      rw [List.any_eq_true]
      exact ⟨r, hmem, by simp [hitem, hkey]⟩
    simp [this]
  have hcnt : countKey s (linkOf e) = 1 := by
    have := countKey_eq_one s huniq r hmem
    rwa [hkey] at this
  have hstep : feedStep src now { store := s, new_items := [], submitted := [] } e
      = { store := s, new_items := [], submitted := [mk_feed_item src e now] } := by
    unfold feedStep
    simp [hlink, hdup]
  refine ⟨hdup, hcnt, ?_, ?_⟩ <;>
    (rw [process_entries_cons, hstep]; try simp)

/-- C1 witness: a concrete store holding one record, and a second feed
entry with the same link; the second insert is a `Duplicate`, the store is
unchanged, and a subsequent batch entry is unaffected. -/
theorem c1_insert_dedup_idempotent_witness :
    insertItem [{ title := "First", link := "https://example.com/a", published := 5,
                  summary := "old", source := "src" }]
        (mk_feed_item "src"
          { title := some "Second", link := some "https://example.com/a", summary := some "new",
            description := none, published_parsed := some 9, updated_parsed := none } 0)
      = ([{ title := "First", link := "https://example.com/a", published := 5,
            summary := "old", source := "src" }], InsertResult.duplicate) ∧
    countKey [{ title := "First", link := "https://example.com/a", published := 5,
                summary := "old", source := "src" }]
        (linkOf { title := some "Second", link := some "https://example.com/a",
                  summary := some "new", description := none, published_parsed := some 9,
                  updated_parsed := none }) = 1 ∧
    (process_entries "src"
        [{ title := "First", link := "https://example.com/a", published := 5,
           summary := "old", source := "src" }]
        [{ title := some "Second", link := some "https://example.com/a", summary := some "new",
           description := none, published_parsed := some 9, updated_parsed := none },
         { title := some "Other", link := some "https://example.com/b", summary := none,
           description := none, published_parsed := some 7, updated_parsed := none }] 0).store
      = (process_entries "src"
          [{ title := "First", link := "https://example.com/a", published := 5,
             summary := "old", source := "src" }]
          [{ title := some "Other", link := some "https://example.com/b", summary := none,
             description := none, published_parsed := some 7, updated_parsed := none }] 0).store ∧
    (process_entries "src"
        [{ title := "First", link := "https://example.com/a", published := 5,
           summary := "old", source := "src" }]
        [{ title := some "Second", link := some "https://example.com/a", summary := some "new",
           description := none, published_parsed := some 9, updated_parsed := none },
         { title := some "Other", link := some "https://example.com/b", summary := none,
           description := none, published_parsed := some 7, updated_parsed := none }] 0).new_items
      = (process_entries "src"
          [{ title := "First", link := "https://example.com/a", published := 5,
             summary := "old", source := "src" }]
          [{ title := some "Other", link := some "https://example.com/b", summary := none,
             description := none, published_parsed := some 7, updated_parsed := none }] 0).new_items :=
  c1_insert_dedup_idempotent "src" 0 _
    { title := "First", link := "https://example.com/a", published := 5,
      summary := "old", source := "src" } _ _
    (by decide) (by decide) (by decide) (by decide)

/-! ## Claim C5 — published-timestamp fallback order -/

/-- C5: the candidate's published timestamp is the entry's published
timestamp when present; otherwise the entry's updated timestamp when
present; otherwise the current time at fetch.  In particular an entry
carrying both uses published. -/
theorem c5_published_fallback_order (e : FeedEntry) (now : Int) :
    (∀ p, e.published_parsed = some p → resolve_published e now = p) ∧
    (e.published_parsed = none → ∀ u, e.updated_parsed = some u → resolve_published e now = u) ∧
    (e.published_parsed = none → e.updated_parsed = none → resolve_published e now = now) := by
  refine ⟨?_, ?_, ?_⟩ <;> intros <;> simp [resolve_published, *]

/-- C5 witness: the three fallback cases at concrete entries — both
timestamps present uses published, only updated uses updated, neither
uses the fetch time. -/
theorem c5_published_fallback_order_witness :
    resolve_published
        { title := some "t", link := some "l", summary := none, description := none,
          published_parsed := some 5, updated_parsed := some 7 } 99 = 5 ∧
    resolve_published
        { title := some "t", link := some "l", summary := none, description := none,
          published_parsed := none, updated_parsed := some 7 } 99 = 7 ∧
    resolve_published
        { title := some "t", link := some "l", summary := none, description := none,
          published_parsed := none, updated_parsed := none } 99 = 99 :=
  ⟨(c5_published_fallback_order _ 99).1 5 rfl,
   (c5_published_fallback_order _ 99).2.1 rfl 7 rfl,
   (c5_published_fallback_order _ 99).2.2 rfl rfl⟩

/-! ## Claim C6 — link-less entries are dropped -/

/-- C6: of `N` parseable entries of which `M` lack a link, exactly `N − M`
candidate records are submitted to the store — precisely the items built
from the linked entries, in order, unaffected by the discarded ones. -/
theorem c6_linkless_entries_dropped (src : String) (s : Store) (entries : List FeedEntry)
    (now : Int) :
    (process_entries src s entries now).submitted
      = (entries.filter (fun e => linkOf e ≠ "")).map (fun e => mk_feed_item src e now) ∧
    (process_entries src s entries now).submitted.length
      = entries.length - (entries.filter (fun e => linkOf e = "")).length := by
  refine ⟨process_entries_submitted src now entries s, ?_⟩
  rw [process_entries_submitted src now entries s, List.length_map]
  have h := filter_length_compl (fun e => linkOf e = "") entries
  simpa using h

/-! ## Claim C7 — identity-key format is preserved exactly -/

/-- C7: a feed item's stored identity key is the entry's own link URL
verbatim, and a mail item's identity key is the string `local://email/`
followed by the provider-assigned message id. -/
theorem c7_identity_key_format (src : String) (e : FeedEntry) (now : Int)
    (parsed : Option (List Html)) (pd : String → Option Int) (tnow : Int) (m : GmailMessage) :
    (mk_feed_item src e now).link = linkOf e ∧
    (parse_email_content parsed pd tnow m).link = "local://email/" ++ m.id :=
  ⟨rfl, rfl⟩

/-! ## Claim C2 — cycle resilience and per-source error reporting

The claim fails on the code: `fetch_single_feed` catches every
`requests.RequestException` internally (src/feeds.py lines 122-124) and
returns `[]`, so the `except` branch of `fetch_all_feeds` (lines 154-160)
that would record `{success: False, error: str(e)}` is unreachable for a
network failure; the failed source is reported as successful with zero
new items and no error entry. -/

/-- A three-source cycle in which exactly the middle source fails with a
network timeout. -/
def c2_sources : List (String × FetchOutcome) :=
  [("a", FetchOutcome.success
      [{ title := some "T", link := some "https://e.com/1", summary := some "s",
         description := none, published_parsed := some 5, updated_parsed := none }]),
   ("b", FetchOutcome.networkError "connection timed out"),
   ("c", FetchOutcome.success
      [{ title := some "U", link := some "https://e.com/2", summary := none,
         description := none, published_parsed := none, updated_parsed := some 6 }])]

/-- C2 counterexample: with three sources of which exactly `"b"` times
out, the cycle summary still covers every source and reports the others'
new-item counts, but the entry for the failed source `"b"` has **no**
error — it is `{success := true, new_items := 0, error := none}` — so the
claimed non-nil error entry for the failed source does not exist. -/
theorem c2_cycle_error_reporting_counterexample :
    (fetch_all_feeds 0 [] c2_sources).2
      = [("a", { success := true, new_items := 1, error := none }),
         ("b", { success := true, new_items := 0, error := none }),
         ("c", { success := true, new_items := 1, error := none })] := by
  decide

/-- C2 amended: in a cycle where one source fails with a network error,
every source — failing or not — receives a result entry in order; the
failed source contributes nothing to the store and is reported as
`{success: True, new_items: 0}` with **no** error entry (`error = none`;
the error is only logged), and the remaining sources produce exactly the
results they would produce if the failed source were absent. -/
theorem c2_cycle_resilience_amended (now : Int) (s : Store)
    (pre post : List (String × FetchOutcome)) (n m : String) :
    fetch_all_feeds now s (pre ++ (n, FetchOutcome.networkError m) :: post)
      = ((fetch_all_feeds now (fetch_all_feeds now s pre).1 post).1,
         (fetch_all_feeds now s pre).2
           ++ (n, { success := true, new_items := 0, error := none })
             :: (fetch_all_feeds now (fetch_all_feeds now s pre).1 post).2) := by
  rw [fetch_all_feeds_append, fetch_all_feeds_net_err_cons]

/-! ## Claim C3 — normalizer totality and degraded mode

The claim fails on the code in one point: the degraded-mode output is not
the bare tag-strip "and nothing else" — `_html_to_text`'s fallback also
applies `.strip()` to the result (src/email_fetch.py line 315). -/

/-- The degraded-mode output the claim prescribes, following the spec's
words: remove angle-bracket markup via pattern matching and nothing
else. -/
def c3_claim_fallback (html : String) : String := stripTags html

/-- C3 counterexample: on the input `"  <b>hi</b>  "` the degraded mode
(parser unavailable) removes the markup **and** trims the surrounding
whitespace, so its result differs from the claimed bare tag-strip. -/
theorem c3_normalizer_fallback_counterexample :
    html_to_text none "  <b>hi</b>  " = "hi" ∧
    c3_claim_fallback "  <b>hi</b>  " = "  hi  " ∧
    html_to_text none "  <b>hi</b>  " ≠ c3_claim_fallback "  <b>hi</b>  " := by
  refine ⟨rfl, rfl, ?_⟩
  decide

/-- C3 amended: `normalize` is total — it is a plain function returning a
string on every input (every operation of both branches is total, and the
`ImportError` fallback handles the parser being unavailable) — and in
degraded mode the result equals the bare regex tag-strip of the input
followed by trimming leading and trailing whitespace. -/
theorem c3_normalizer_fallback_amended (html : String) :
    html_to_text none html = pyStrip (c3_claim_fallback html) := rfl

/-! ## Claim C9 — stored titles never empty

The claim fails on the code: `entry.get("title", "No Title")` and
`headers.get("Subject", "No Subject")` substitute the placeholder only
when the field is **absent**; a present-but-empty title or subject is
stored verbatim as the empty string. -/

/-- A feed entry whose title field is present but empty. -/
def c9_entry : FeedEntry :=
  { title := some "", link := some "https://example.com/e1", summary := none,
    description := none, published_parsed := some 10, updated_parsed := none }

/-- C9 counterexample: ingesting a feed entry with a present-but-empty
title stores a record whose title is the empty string — no placeholder is
substituted. -/
theorem c9_title_never_empty_counterexample :
    (process_entries "src" [] [c9_entry] 0).store
      = [{ title := "", link := "https://example.com/e1", published := 10,
           summary := "", source := "src" }] ∧
    (mk_feed_item "src" c9_entry 0).title = "" := by
  constructor
  · decide
  · decide

/-- C9 amended: the placeholder (`"No Title"` for feed entries,
`"No Subject"` for mail) is substituted exactly when the source
title/subject field is absent; a present field — even the empty string —
is stored verbatim. -/
theorem c9_title_placeholder_amended (src : String) (e : FeedEntry) (now : Int)
    (parsed : Option (List Html)) (pd : String → Option Int) (tnow : Int) (m : GmailMessage) :
    (e.title = none → (mk_feed_item src e now).title = "No Title") ∧
    (∀ t, e.title = some t → (mk_feed_item src e now).title = t) ∧
    (headerLookup m.headers "Subject" = none →
      (parse_email_content parsed pd tnow m).title = "No Subject") ∧
    (∀ v, headerLookup m.headers "Subject" = some v →
      (parse_email_content parsed pd tnow m).title = v) := by
  refine ⟨?_, ?_, ?_, ?_⟩ <;> intros <;>
    simp [mk_feed_item, parse_email_content, headerGet, *]

/-- C9 witness: an absent feed title becomes `"No Title"`, an absent mail
subject becomes `"No Subject"`. -/
theorem c9_title_placeholder_amended_witness :
    (mk_feed_item "src"
        { title := none, link := some "https://example.com/e2", summary := none,
          description := none, published_parsed := none, updated_parsed := none } 0).title
      = "No Title" ∧
    (parse_email_content none (fun _ => none) 0
        { id := "m1", headers := [], internalDate := 0,
          payload := { mimeType := "text/plain", data := some "hi", parts := none } }).title
      = "No Subject" :=
  ⟨(c9_title_placeholder_amended "src"
      { title := none, link := some "https://example.com/e2", summary := none,
        description := none, published_parsed := none, updated_parsed := none } 0
      none (fun _ => none) 0
      { id := "m1", headers := [], internalDate := 0,
        payload := { mimeType := "text/plain", data := some "hi", parts := none } }).1 rfl,
   (c9_title_placeholder_amended "src"
      { title := none, link := some "https://example.com/e2", summary := none,
        description := none, published_parsed := none, updated_parsed := none } 0
      none (fun _ => none) 0
      { id := "m1", headers := [], internalDate := 0,
        payload := { mimeType := "text/plain", data := some "hi", parts := none } }).2.2.1 rfl⟩

/-! ## Claim C4 — long redirector links render as `text [domain]`

The claim fails on the code in one point: the visible text is kept only
when it is longer than 3 characters (`if text and len(text) > 3`,
src/email_fetch.py line 358); shorter non-empty text is dropped and the
link renders as `[domain]` alone. -/

/-- The rendering the claim prescribes for a qualifying link: the trimmed
visible text followed by the bracketed domain, or the bracketed domain
alone only when there is no visible text. -/
def c4_claim_render (href rawText : String) : LinkAction :=
  let text := pyStrip rawText
  if text ≠ "" then .replacedWith (text ++ " [" ++ extract_domain href ++ "]")
  else .replacedWith ("[" ++ extract_domain href ++ "]")

/-- A 110-character redirector-style target (contains `mail`, longer than
100 characters, hits none of the tracking/unsubscribe drop filters). -/
def c4_href : String :=
  "https://mail.beehiiv.com/ss/c/aaaaaaaaaaaaaaaaaaaaaaaaaaaaaaaaaaaaaaaaaaaaaaaaaaaaaaaaaaaaaaaaaaaaaaaaaaaaaaaa"

/-- C4 counterexample: a qualifying long redirector link with the
non-empty visible text `"Go"` renders as `[beehiiv.com]` alone — the
visible text is discarded because it is not longer than 3 characters —
while the claim prescribes `Go [beehiiv.com]`. -/
theorem c4_link_rewriting_counterexample :
    c4_href.length > 100 ∧
    containsSub c4_href "mail" = true ∧
    rewrite_link c4_href "Go" = LinkAction.replacedWith "[beehiiv.com]" ∧
    c4_claim_render c4_href "Go" = LinkAction.replacedWith "Go [beehiiv.com]" ∧
    rewrite_link c4_href "Go" ≠ c4_claim_render c4_href "Go" := by
  refine ⟨by decide, by decide, by decide, by decide, by decide⟩

/-- C4 amended: for a hyperlink that passes the tracking/unsubscribe drop
filters, whose target is longer than 100 characters and contains
`beehiiv` or `mail`, the link renders as the trimmed visible text
followed by `[domain]` when that text is longer than 3 characters, and as
`[domain]` alone otherwise (in particular when the text is empty); the
domain is produced by the code's `_extract_domain` step, which strips the
first matching tracking subdomain marker and collapses known
newsletter-platform domains to their canonical name when no marker was
stripped. -/
theorem c4_link_rewriting_amended (href rawText : String)
    (h1 : containsAnySub (strLower href) ["tracking", "pixel", "beacon", "unsubscribe"] = false)
    (h2 : containsAnySub (strLower (pyStrip rawText))
            ["view in browser", "view image", "unsubscribe"] = false)
    (h3 : href.length > 100)
    (h4 : (containsSub href "beehiiv" || containsSub href "mail") = true) :
    rewrite_link href rawText =
      (if (pyStrip rawText).length > 3 then
        LinkAction.replacedWith (pyStrip rawText ++ " [" ++ extract_domain href ++ "]")
       else LinkAction.replacedWith ("[" ++ extract_domain href ++ "]")) := by
  unfold rewrite_link
  simp only [h1, h2, h4, Bool.false_eq_true, if_false, decide_eq_true h3, Bool.true_and, if_true]
  by_cases hl : 3 < (pyStrip rawText).length
  · have hne : pyStrip rawText ≠ "" := by
      intro he
      rw [he] at hl
      exact absurd hl (by decide)
    simp [hl, hne]
  · simp [hl]

/-- C4 witness: the spec's own example — visible text `"Read the report"`
on a long redirector target renders as `Read the report [beehiiv.com]`,
with the `mail.` tracking marker stripped from the domain. -/
theorem c4_link_rewriting_amended_witness :
    rewrite_link c4_href "Read the report"
      = LinkAction.replacedWith "Read the report [beehiiv.com]" := by
  rw [c4_link_rewriting_amended c4_href "Read the report"
    (by decide) (by decide) (by decide) (by decide)]
  decide

/-! ## Claim C8 — email body extraction preference

The claim fails on the code in one point: the preference is decided on
the accumulated *content*, not on part existence (`if body:` at
src/email_fetch.py line 289) — a message that carries a plain-text part
whose decoded content is empty falls through to the HTML part. -/

/-- Following the claim's words: does the message carry a plain-text MIME
part at all (regardless of its content)? -/
def hasPlainPart (p : EmailPayload) : Bool :=
  match p.parts with
  | some parts => parts.any (fun part => part.mimeType = "text/plain")
  | none => p.mimeType = "text/plain"

/-- Following the claim's words: does the message carry an HTML part? -/
def hasHtmlPart (p : EmailPayload) : Bool :=
  match p.parts with
  | some parts => parts.any (fun part => part.mimeType = "text/html")
  | none => p.mimeType = "text/html"

/-- The body the claim prescribes: the (concatenated) plain-text content
whenever a plain-text part exists; else the normalized (concatenated)
HTML; else empty. -/
def c8_claim_body (parsed : Option (List Html)) (p : EmailPayload) : String :=
  if hasPlainPart p then plainContent p
  else if hasHtmlPart p then html_to_text parsed (htmlContent p)
  else ""

/-- A multipart message with a plain-text part of empty decoded content
next to a non-empty HTML part. -/
def c8_payload : EmailPayload :=
  { mimeType := "multipart/alternative", data := none,
    parts := some [{ mimeType := "text/plain", data := some "" },
                   { mimeType := "text/html",
                     data := some "<p>hello world from the newsletter</p>" }] }

/-- The parse of the HTML part of `c8_payload` (external
`html.parser`). -/
def c8_doc : List Html := [Html.tag "p" [] [Html.txt "hello world from the newsletter"]]

/-- C8 counterexample: `c8_payload` carries a plain-text part, so the
claim prescribes the (empty) plain-text content as the body; the code
instead returns the normalized HTML part. -/
theorem c8_body_preference_counterexample :
    hasPlainPart c8_payload = true ∧
    extract_email_body (some c8_doc) c8_payload = "hello world from the newsletter" ∧
    c8_claim_body (some c8_doc) c8_payload = "" ∧
    extract_email_body (some c8_doc) c8_payload ≠ c8_claim_body (some c8_doc) c8_payload := by
  refine ⟨by decide, by decide, by decide, by decide⟩

/-- C8 amended: body extraction prefers the concatenated plain-text
content when it is non-empty; when it is empty and the concatenated HTML
content is non-empty, the body is that HTML through the normalizer; when
both are empty the body is empty.  All plain-text parts and all HTML
parts of a multipart payload are concatenated within each type before
this decision, and the result is whitespace-trimmed. -/
theorem c8_body_preference_amended (parsed : Option (List Html)) (p : EmailPayload) :
    (plainContent p ≠ "" → extract_email_body parsed p = pyStrip (plainContent p)) ∧
    (plainContent p = "" → htmlContent p ≠ "" →
      extract_email_body parsed p = pyStrip (html_to_text parsed (htmlContent p))) ∧
    (plainContent p = "" → htmlContent p = "" → extract_email_body parsed p = "") := by
  refine ⟨?_, ?_, ?_⟩
  · intro h1
    simp [extract_email_body, h1]
  · intro h1 h2
    simp [extract_email_body, h1, h2]
  · intro h1 h2
    simp [extract_email_body, h1, h2]
    decide

/-- C8 witness: a multipart message with non-empty plain-text content
keeps that content as the body. -/
theorem c8_body_preference_amended_witness :
    extract_email_body none
        { mimeType := "multipart/alternative", data := none,
          parts := some [{ mimeType := "text/plain", data := some "plain body" }] }
      = "plain body" := by
  rw [(c8_body_preference_amended none
    { mimeType := "multipart/alternative", data := none,
      parts := some [{ mimeType := "text/plain", data := some "plain body" }] }).1 (by decide)]
  decide

/-! ## Claim C10 — one mail cycle processes at most 100 messages -/

/-- C10: the mailbox search is issued with a maximum-results cap of 100,
so the candidate email records submitted to the store in one cycle number
at most 100, however many messages match the query. -/
theorem c10_mail_cycle_capped (auth : Bool) (parsed : Option (List Html))
    (pd : String → Option Int) (now : Int) (s : Store)
    (matching : List (String × Option GmailMessage)) :
    (fetch_newsletter_emails auth parsed pd now s matching).submitted.length ≤ 100 := by
  unfold fetch_newsletter_emails
  cases auth with
  | false => simp
  | true =>
    simp only [if_pos]
    have hfold := foldl_emailStep_submitted_le parsed pd now
      (search_emails true matching 100) { store := s, new_items := [], submitted := [] }
    have htake : (search_emails true matching 100).length ≤ 100 := by
      simp [search_emails]
    simpa using le_trans hfold (by simpa using htake)

end BetterInfoFeeds
